import Mathlib

/-!
Shallow embedding of the LumiBrick firmware (src/lumibrick.ino, version
1.0.0-alpha.11, and src/unnamed/part_000, version 1.0.0-alpha.15; the two
files agree except where noted).  The 512-byte EEPROM region is modelled as
a total map from addresses to byte values; Arduino String values are
modelled as lists of byte values (`List Nat`), or as lists of characters
where only character manipulation occurs.
-/

/-- EEPROM.write of one byte cell; the stored value is truncated to a byte. -/
def ewrite (a v : Nat) (s : Nat → Nat) : Nat → Nat :=
  fun x => if x = a then v % 256 else s x

/-- A write loop of saveCredentials: `EEPROM.write(base + i, bs[i])` for each
index `i` of `bs`, in order. -/
def writeBytes : Nat → List Nat → (Nat → Nat) → Nat → Nat
  | _, [], s => s
  | base, b :: rest, s => writeBytes (base + 1) rest (ewrite base b s)

/-- A read loop of loadCredentials: `EEPROM.read(base + i)` for `i < len`. -/
def readBytes (base len : Nat) (s : Nat → Nat) : List Nat :=
  (List.range len).map (fun i => s (base + i))

/-- Construction of an Arduino String from a NUL-terminated char buffer, as in
`String(ssidBuffer)`: the resulting value ends at the first zero byte. -/
def cString (bs : List Nat) : List Nat :=
  bs.takeWhile (fun b => b != 0)

/-- saveCredentials: writes the ssid length byte at address 0, the ssid bytes
from address 1, the passphrase length byte at `1 + ssidLength`, and the
passphrase bytes from `2 + ssidLength`. -/
def saveCredentials (ssid pass : List Nat) (s : Nat → Nat) : Nat → Nat :=
  writeBytes (2 + ssid.length) pass
    (ewrite (1 + ssid.length) pass.length
      (writeBytes 1 ssid
        (ewrite 0 ssid.length s)))

/-- loadCredentials: reads the ssid length byte at address 0, the ssid bytes
from address 1, the passphrase length byte at `1 + ssidLength`, and the
passphrase bytes from `2 + ssidLength`; each field is rebuilt through a
NUL-terminated char buffer. -/
def loadCredentials (s : Nat → Nat) : List Nat × List Nat :=
  (cString (readBytes 1 (s 0) s),
   cString (readBytes (2 + s 0) (s (1 + s 0)) s))

/-- The addresses `EEPROM.read` is invoked on during loadCredentials. -/
def loadReadAddrs (s : Nat → Nat) : List Nat :=
  0 :: (1 + s 0) ::
    ((List.range (s 0)).map (fun i => 1 + i) ++
     (List.range (s (1 + s 0))).map (fun i => 2 + s 0 + i))

/-- Connectivity mode chosen by `setup()` after loading credentials. -/
inductive BootMode
  | provisioning
  | attaching
deriving DecidableEq

/-- The boot branch in `setup()`: `if (home_ssid.length() > 0 &&
home_password.length() > 0) setupWiFi(); else startAPMode();`. -/
def bootBranch (hs hp : List Nat) : BootMode :=
  if 0 < hs.length ∧ 0 < hp.length then BootMode.attaching else BootMode.provisioning

/-- Boot decision as a function of the EEPROM contents: `loadCredentials()`
followed by the branch on the two loaded fields. -/
def boot (s : Nat → Nat) : BootMode :=
  bootBranch (loadCredentials s).1 (loadCredentials s).2

/-- The `mac.replace(":", "")` step of createUniqueSSID: every colon is
removed from the MAC address string. -/
def removeColons (mac : List Char) : List Char :=
  mac.filter (fun c => c != ':')

/-- createUniqueSSID from lumibrick.ino: the fixed product text followed by
`mac.substring(8)` of the colon-stripped MAC address (part_000 differs only
in the case of one letter of the fixed text, not in the suffix logic). -/
def createUniqueSSID (mac : List Char) : List Char :=
  ("HomeVision_LumiBrick_").data ++ (removeColons mac).drop 8

/-- The bounded connection-polling loop of lumibrick.ino, used both by
`setupWiFi()` and by the reconnect path in `loop()`:
`while (WiFi.status() != WL_CONNECTED && millis() - start < 30000) delay(500);`.
`connAt k` is the connection status observed at the k-th poll; after `k`
delays, `millis() - start` is `500 * k`.  The `fuel` argument bounds the
modelled execution: `none` means the loop is still running after `fuel`
status checks, `some k` means the loop exited at check `k`. -/
def wifiPoll30s (connAt : Nat → Bool) : Nat → Nat → Option Nat
  | _, 0 => none
  | k, fuel + 1 =>
    if connAt k = false ∧ 500 * k < 30000 then wifiPoll30s connAt (k + 1) fuel
    else some k

/-- setupWiFi from lumibrick.ino (1.0.0-alpha.11): runs the bounded polling
loop; the returned Bool is the value of `isAPMode` afterwards (`false` on
success, `true` after `startAPMode()` on timeout). -/
def setupWiFi_v11 (connAt : Nat → Bool) (fuel : Nat) : Option Bool :=
  (wifiPoll30s connAt 0 fuel).map (fun k => !(connAt k))

/-- The unbounded connection-polling loop of part_000 (1.0.0-alpha.15), used
both by `setupWiFi()` and by the reconnect path in `loop()`:
`while (WiFi.status() != WL_CONNECTED) delay(500);` — no timeout check. -/
def wifiPollForever (connAt : Nat → Bool) : Nat → Nat → Option Nat
  | _, 0 => none
  | k, fuel + 1 =>
    if connAt k = false then wifiPollForever connAt (k + 1) fuel
    else some k

/-- setupWiFi from part_000 (1.0.0-alpha.15): runs the unbounded polling loop
and, when it exits, always proceeds to the connected actions with
`isAPMode = false`; there is no AP fallback in this version. -/
def setupWiFi_v15 (connAt : Nat → Bool) (fuel : Nat) : Option Bool :=
  (wifiPollForever connAt 0 fuel).map (fun _ => false)

/-- Environment of one performOTAUpdate invocation: the observable results of
the external HTTP and Update-library calls it makes.  `written` is the value
returned by `Update.writeStream` (the number of bytes actually written, i.e.
the update progress), and `endOk` is the value returned by `Update.end()`. -/
structure OtaEnv where
  wifiConnected : Bool
  httpCode : Int
  contentLength : Int
  canBegin : Bool
  written : Nat
  endOk : Bool

/-- Update.isFinished() of the ESP32 Update library: reports whether the
update progress equals the declared size, i.e. whether the number of bytes
written equals the expected content length. -/
def update_isFinished (e : OtaEnv) : Bool :=
  (e.written : Int) == e.contentLength

/-- performOTAUpdate (identical in both versions), reduced to its decision
whether `ESP.restart()` is reached: requires Wi-Fi connected, HTTP 200, a
positive content length, a successful `Update.begin`, a true `Update.end()`,
and a true `Update.isFinished()`. -/
def performOTAUpdate (e : OtaEnv) : Bool :=
  if e.wifiConnected = false then false
  else if e.httpCode == 200 then
    if e.contentLength > 0 then
      if e.canBegin then
        if e.endOk then
          if update_isFinished e then true else false
        else false
      else false
    else false
  else false

/-- Events a request handler performs, in program order. -/
inductive Ev
  | send (code : Nat)
  | saveCreds
  | apOff
  | wifiBegin
  | mdnsStart
  | stripGreen
deriving DecidableEq

/-- The global device state touched by handleConnect. -/
structure DevState where
  home_ssid : List Nat
  home_password : List Nat
  eeprom : Nat → Nat
  isAPMode : Bool

/-- A parsed JSON object with string-valued fields, as produced by
`deserializeJson` for the bodies the handlers read. -/
abbrev JDoc := List (String × List Nat)

/-- Field lookup `doc[key]` on a parsed JSON object. -/
def jGet (doc : JDoc) (k : String) : Option (List Nat) :=
  (doc.find? (fun p => p.1 == k)).map (fun p => p.2)

/-- ArduinoJson `as<String>()`: a missing (null) value is serialized, which
yields the four characters of the word null. -/
def asJsonString (v : Option (List Nat)) : List Nat :=
  v.getD [110, 117, 108, 108]

/-- JSON key used by handleConnect for the network name. -/
def keySsid : String := "ssid"

/-- JSON key used by handleConnect for the passphrase. -/
def keyPassword : String := "password"

/-- Input to handleConnect: the raw body if `server.hasArg("plain")` (with
the outcome of `deserializeJson` on it), and the two form arguments. -/
structure ConnectReq where
  plainBody : Option (Except Unit JDoc)
  argSsid : Option (List Nat)
  argPassword : Option (List Nat)

/-- Common tail of both credential-accepting branches of handleConnect:
assign the globals, saveCredentials, `WiFi.softAPdisconnect`,
`isAPMode = false`, `WiFi.begin`, then poll up to 20 times; on success start
mDNS and light the strip green, on failure set `isAPMode = true`.
`connOk` is whether the connection succeeded within the 20 retries. -/
def connectWith (s p : List Nat) (connOk : Bool) (st : DevState) : List Ev × DevState :=
  let st1 : DevState :=
    { st with
      home_ssid := s
      home_password := p
      eeprom := saveCredentials s p st.eeprom
      isAPMode := false }
  if connOk then
    ([Ev.saveCreds, Ev.apOff, Ev.wifiBegin, Ev.mdnsStart, Ev.stripGreen], st1)
  else
    ([Ev.saveCreds, Ev.apOff, Ev.wifiBegin], { st1 with isAPMode := true })

/-- handleConnect (identical in both versions).  On a present body: a JSON
parse error yields 400 and no further action; otherwise the success response
is sent first and the credentials are then read from the `ssid` and
`password` fields (a missing field serializes as the word null) and
persisted.  With no body, the form-argument branch runs without sending any
response, and with neither form argument a 400 is sent. -/
def handleConnect (req : ConnectReq) (connOk : Bool) (st : DevState) : List Ev × DevState :=
  match req.plainBody with
  | some (Except.error _) => ([Ev.send 400], st)
  | some (Except.ok doc) =>
    let r := connectWith (asJsonString (jGet doc keySsid))
      (asJsonString (jGet doc keyPassword)) connOk st
    (Ev.send 200 :: r.1, r.2)
  | none =>
    match req.argSsid, req.argPassword with
    | some s, some p => connectWith s p connOk st
    | _, _ => ([Ev.send 400], st)

/-- Arduino `constrain(x, lo, hi)`. -/
def constrainI (x lo hi : Int) : Int :=
  if x < lo then lo else if hi < x then hi else x

/-- Arduino `map(x, inMin, inMax, outMin, outMax)`; C integer division
truncates toward zero, which is `Int.tdiv`. -/
def mapRange (x inMin inMax outMin outMax : Int) : Int :=
  Int.tdiv ((x - inMin) * (outMax - outMin)) (inMax - inMin) + outMin

/-- The color object of a /led body: each channel key may be absent. -/
structure ColorDoc where
  r : Option Int
  g : Option Int
  b : Option Int
  w : Option Int
deriving DecidableEq

/-- A parsed /led body: each top-level key may be absent. -/
structure LedDoc where
  brightness : Option Int
  state : Option String
  color : Option ColorDoc
deriving DecidableEq

/-- Input to handleLEDControl: no body, an unparseable body, or a parsed one. -/
inductive LedReq
  | missing
  | badJson
  | parsed (doc : LedDoc)

/-- The global LED state of part_000 plus the strip it drives: `stripPix` is
the color last written to all pixels of the (uniformly written) strip, and
`stripBrightness` the value last passed to `strip.setBrightness`. -/
structure LedState where
  isOn : Bool
  ledColorR : Nat
  ledColorG : Nat
  ledColorB : Nat
  ledColorW : Nat
  ledBrightness : Nat
  stripPix : Nat × Nat × Nat × Nat
  stripBrightness : Nat
deriving DecidableEq

/-- The brightness block of handleLEDControl (part_000): constrain to 0..100,
map to 0..255, store it and pass it to `strip.setBrightness`. -/
def ledAfterBrightness (b : Option Int) (st : LedState) : LedState :=
  match b with
  | none => st
  | some v =>
    let b255 := (mapRange (constrainI v 0 100) 0 100 0 255).toNat
    { st with ledBrightness := b255, stripBrightness := b255 }

/-- One channel of the color block: updated only when the key is present,
constrained to 0..255. -/
def updChan (o : Option Int) (cur : Nat) : Nat :=
  match o with
  | some v => (constrainI v 0 255).toNat
  | none => cur

/-- The color block of handleLEDControl (part_000): each of the four channel
keys is applied independently when present. -/
def applyColor (c : Option ColorDoc) (st : LedState) : LedState :=
  match c with
  | none => st
  | some cf =>
    { st with
      ledColorR := updChan cf.r st.ledColorR
      ledColorG := updChan cf.g st.ledColorG
      ledColorB := updChan cf.b st.ledColorB
      ledColorW := updChan cf.w st.ledColorW }

/-- Final part of handleLEDControl (part_000) after the state block: the
color block, then `if (shouldUpdateLEDs && ledIsOn)` rewrite the strip with
the stored color, then the 200 echo response. -/
def ledFinish (doc : LedDoc) (su : Bool) (st : LedState) : Nat × LedState :=
  let st1 := applyColor doc.color st
  let su1 := su || doc.color.isSome
  let st2 :=
    if su1 && st1.isOn then
      { st1 with stripPix := (st1.ledColorR, st1.ledColorG, st1.ledColorB, st1.ledColorW) }
    else st1
  (200, st2)

/-- handleLEDControl from part_000, returning the HTTP status code sent and
the resulting state.  Order as in the source: missing body and parse errors
yield 400; the brightness block runs first; a state value of on sets the
flag, a state value of off blanks the strip and returns at once (before the
color block); the color block and the conditional strip rewrite follow. -/
def handleLEDControl (req : LedReq) (st : LedState) : Nat × LedState :=
  match req with
  | LedReq.missing => (400, st)
  | LedReq.badJson => (400, st)
  | LedReq.parsed doc =>
    let st1 := ledAfterBrightness doc.brightness st
    let su1 := doc.brightness.isSome
    match doc.state with
    | none => ledFinish doc su1 st1
    | some sv =>
      if sv = "on" then ledFinish doc true { st1 with isOn := true }
      else if sv = "off" then
        (200, { st1 with isOn := false, stripPix := (0, 0, 0, 0) })
      else ledFinish doc su1 st1

/-- handleLEDStatus from part_000: reports `isOn`, the brightness mapped back
to the 0..100 scale, and the four stored color channels. -/
def handleLEDStatus (st : LedState) : Bool × Int × (Nat × Nat × Nat × Nat) :=
  (st.isOn, mapRange st.ledBrightness 0 255 0 100,
   (st.ledColorR, st.ledColorG, st.ledColorB, st.ledColorW))

/-- Byte values of the word home, the ssid of the specification scenario. -/
def homeBytes : List Nat := [104, 111, 109, 101]

/-- Byte values of the word secret123, the passphrase of the specification
scenario. -/
def secretBytes : List Nat := [115, 101, 99, 114, 101, 116, 49, 50, 51]

/-- Byte values of the word passphrase, the field name the specification
uses for /connect bodies. -/
def keyPassphrase : String := "passphrase"

/-- A device state in AP mode with empty credentials and a zeroed store. -/
def connSt0 : DevState := ⟨[], [], fun _ => 0, true⟩

/-- The LED state at boot: off, black, full brightness (part_000 line 37-40). -/
def ledSt0 : LedState := ⟨false, 0, 0, 0, 0, 255, (0, 0, 0, 0), 0⟩

/-- Projection used to state the /led frame properties: the state after
handleLEDControl on a parsed body with the given fields. -/
def ledResult (br : Option Int) (stt : Option String) (c : Option ColorDoc)
    (st : LedState) : LedState :=
  (handleLEDControl (LedReq.parsed ⟨br, stt, c⟩) st).2

/-- handleConnect on a parsed JSON body carrying exactly the `ssid` and
`password` fields with the given values. -/
def connectJson (s p : List Nat) (connOk : Bool) (st : DevState) : List Ev × DevState :=
  handleConnect ⟨some (Except.ok [(keySsid, s), (keyPassword, p)]), none, none⟩ connOk st

theorem ewrite_self (a v : Nat) (s : Nat → Nat) : ewrite a v s a = v % 256 := by
  simp [ewrite]

theorem ewrite_ne (a b v : Nat) (s : Nat → Nat) (h : b ≠ a) : ewrite a v s b = s b := by
  simp [ewrite, h]

theorem writeBytes_lt (bs : List Nat) (base a : Nat) (s : Nat → Nat) (h : a < base) :
    writeBytes base bs s a = s a := by
  induction bs generalizing base s with
  | nil => rfl
  | cons b rest ih =>
    rw [writeBytes, ih (base + 1) _ (Nat.lt_succ_of_lt h)]
    exact ewrite_ne base a b s (Nat.ne_of_lt h)

theorem writeBytes_ge (bs : List Nat) (base a : Nat) (s : Nat → Nat)
    (h : base + bs.length ≤ a) : writeBytes base bs s a = s a := by
  induction bs generalizing base s with
  | nil => rfl
  | cons b rest ih =>
    rw [writeBytes, ih (base + 1) _ (by simp at h; omega)]
    exact ewrite_ne base a b s (by simp at h; omega)

theorem writeBytes_get (bs : List Nat) (base i : Nat) (s : Nat → Nat) (h : i < bs.length) :
    writeBytes base bs s (base + i) = bs.getD i 0 % 256 := by
  induction bs generalizing base i s with
  | nil => cases h
  | cons b rest ih =>
    cases i with
    | zero =>
      rw [writeBytes, writeBytes_lt _ _ _ _ (by omega)]
      simpa using ewrite_self base b s
    | succ j =>
      rw [writeBytes, show base + (j + 1) = (base + 1) + j by omega,
        ih (base + 1) j _ (by simpa using h)]
      rfl

theorem cString_eq_self {bs : List Nat} (h : ∀ b ∈ bs, b ≠ 0) : cString bs = bs := by
  induction bs with
  | nil => rfl
  | cons b rest ih =>
    have hb : (b != 0) = true := by
      simpa using h b (List.mem_cons_self b rest)
    simp only [cString, List.takeWhile_cons, hb, if_true]
    have := ih (fun x hx => h x (List.mem_cons_of_mem _ hx))
    simpa [cString] using this

theorem readBytes_eq (base : Nat) (bs : List Nat) (s : Nat → Nat)
    (h : ∀ i, i < bs.length → s (base + i) = bs.getD i 0) :
    readBytes base bs.length s = bs := by
  apply List.ext_getElem
  · simp [readBytes]
  · intro i h1 h2
    simp only [readBytes, List.getElem_map, List.getElem_range]
    rw [h i h2, List.getD_eq_getElem bs 0 h2]

theorem load_save_eq (ssid pass : List Nat) (s : Nat → Nat)
    (h1 : ssid.length ≤ 255) (h2 : pass.length ≤ 255)
    (hs1 : ∀ b ∈ ssid, b < 256) (hs0 : ∀ b ∈ ssid, b ≠ 0)
    (hp1 : ∀ b ∈ pass, b < 256) (hp0 : ∀ b ∈ pass, b ≠ 0) :
    loadCredentials (saveCredentials ssid pass s) = (ssid, pass) := by
  have t0 : saveCredentials ssid pass s 0 = ssid.length := by
    rw [saveCredentials, writeBytes_lt _ _ _ _ (by omega),
      ewrite_ne _ _ _ _ (by omega), writeBytes_lt _ _ _ _ (by omega),
      ewrite_self]
    exact Nat.mod_eq_of_lt (by omega)
  have tL : saveCredentials ssid pass s (1 + ssid.length) = pass.length := by
    rw [saveCredentials, writeBytes_lt _ _ _ _ (by omega), ewrite_self]
    exact Nat.mod_eq_of_lt (by omega)
  have tS : ∀ i, i < ssid.length → saveCredentials ssid pass s (1 + i) = ssid.getD i 0 := by
    intro i hi
    rw [saveCredentials, writeBytes_lt _ _ _ _ (by omega),
      ewrite_ne _ _ _ _ (by omega), writeBytes_get _ _ _ _ hi]
    have : ssid.getD i 0 ∈ ssid := by
      rw [List.getD_eq_getElem ssid 0 hi]
      exact List.getElem_mem hi
    exact Nat.mod_eq_of_lt (hs1 _ this)
  have tP : ∀ i, i < pass.length →
      saveCredentials ssid pass s (2 + ssid.length + i) = pass.getD i 0 := by
    intro i hi
    rw [saveCredentials, writeBytes_get _ _ _ _ hi]
    have : pass.getD i 0 ∈ pass := by
      rw [List.getD_eq_getElem pass 0 hi]
      exact List.getElem_mem hi
    exact Nat.mod_eq_of_lt (hp1 _ this)
  rw [loadCredentials, t0, tL]
  rw [readBytes_eq 1 ssid _ tS, readBytes_eq (2 + ssid.length) pass _ tP]
  rw [cString_eq_self hs0, cString_eq_self hp0]

/-- C2: loadCredentials only reads addresses below 512 for every byte-valued
store content, and whenever a stored length byte would exceed the remaining
capacity of the 512-byte region the result would be empty credentials (for a
512-byte region and one-byte lengths the premise of that conditional is
unsatisfiable, so no over-read is possible at all). -/
theorem C2_load_in_bounds (s : Nat → Nat) (hb : ∀ i, s i ≤ 255) :
    (∀ a ∈ loadReadAddrs s, a < 512) ∧
    (511 < s 0 + 1 ∨ 512 < s (1 + s 0) + s 0 + 2 → loadCredentials s = ([], [])) := by
  constructor
  · intro a ha
    have h0 := hb 0
    have h1 := hb (1 + s 0)
    simp only [loadReadAddrs, List.mem_cons, List.mem_append, List.mem_map,
      List.mem_range] at ha
    rcases ha with rfl | rfl | ⟨i, hi, rfl⟩ | ⟨i, hi, rfl⟩ <;> omega
  · intro h
    have h0 := hb 0
    have h1 := hb (1 + s 0)
    omega

theorem C2_witness : (3 : Nat) < 512 :=
  (C2_load_in_bounds (fun _ => 2) (fun _ => by norm_num)).1 3 (by decide)

/-- C3 fails as stated: a one-byte ssid consisting of the zero byte is within
the stated bounds, but load(save(...)) drops it, because loadCredentials
rebuilds each field from a NUL-terminated char buffer. -/
theorem C3_counterexample :
    loadCredentials (saveCredentials [0] [] (fun _ => 0)) ≠ ([0], []) := by
  decide

/-- C3 (amended): for every ssid of 1 to 31 bytes and passphrase of 0 to 63
bytes in which no byte is zero, saving and then loading yields exactly the
saved pair. -/
theorem C3_roundtrip (ssid pass : List Nat) (s : Nat → Nat)
    (hl : 1 ≤ ssid.length) (hu : ssid.length ≤ 31) (hp : pass.length ≤ 63)
    (hs1 : ∀ b ∈ ssid, b < 256) (hs0 : ∀ b ∈ ssid, b ≠ 0)
    (hp1 : ∀ b ∈ pass, b < 256) (hp0 : ∀ b ∈ pass, b ≠ 0) :
    loadCredentials (saveCredentials ssid pass s) = (ssid, pass) :=
  load_save_eq ssid pass s (by omega) (by omega) hs1 hs0 hp1 hp0

theorem C3_witness :
    loadCredentials (saveCredentials [104] [112] (fun _ => 7)) = ([104], [112]) :=
  C3_roundtrip [104] [112] (fun _ => 7) (by decide) (by decide) (by decide)
    (by decide) (by decide) (by decide) (by decide)

/-- C6 fails as stated: a stored pair with non-empty ssid and empty
passphrase is loaded back intact, yet boot enters Provisioning, because
`setup()` tests `home_password.length() > 0` as well. -/
theorem C6_counterexample :
    (loadCredentials (saveCredentials [104] [] (fun _ => 0))).1 = [104] ∧
    boot (saveCredentials [104] [] (fun _ => 0)) = BootMode.provisioning := by
  decide

/-- C6 (amended): at boot the device attempts Attach exactly when both the
loaded ssid and the loaded passphrase are non-empty; if either is empty it
enters Provisioning (AP) mode. -/
theorem C6_boot_mode (s : Nat → Nat) :
    boot s = BootMode.attaching ↔
      ((loadCredentials s).1 ≠ [] ∧ (loadCredentials s).2 ≠ []) := by
  rw [boot, bootBranch]
  by_cases h : 0 < (loadCredentials s).1.length ∧ 0 < (loadCredentials s).2.length
  · rw [if_pos h]
    exact iff_of_true rfl ⟨List.length_pos.mp h.1, List.length_pos.mp h.2⟩
  · rw [if_neg h]
    exact iff_of_false (by decide)
      (fun hc => h ⟨List.length_pos.mpr hc.1, List.length_pos.mpr hc.2⟩)

/-- C8 fails as stated: `substring(8)` of the 12 hex characters of a MAC
address keeps the last 4 of them, not the last 6. -/
theorem C8_counterexample :
    createUniqueSSID (("AA:BB:CC:DD:EE:FF").data) = ("HomeVision_LumiBrick_EEFF").data ∧
    createUniqueSSID (("AA:BB:CC:DD:EE:FF").data) ≠ ("HomeVision_LumiBrick_DDEEFF").data := by
  decide

/-- C8 (amended): for every MAC address whose colon-stripped form has the
standard 12 hex characters, the generated AP SSID is the fixed product text
followed by the last 4 hex characters of the MAC address (and it is a
function of the MAC address alone). -/
theorem C8_ap_ssid (mac : List Char) (h : (removeColons mac).length = 12) :
    createUniqueSSID mac =
      ("HomeVision_LumiBrick_").data ++
        (removeColons mac).drop ((removeColons mac).length - 4) := by
  simp [createUniqueSSID, h]

theorem C8_witness :
    createUniqueSSID (("AA:BB:CC:DD:EE:FF").data) =
      ("HomeVision_LumiBrick_").data ++
        (removeColons (("AA:BB:CC:DD:EE:FF").data)).drop
          ((removeColons (("AA:BB:CC:DD:EE:FF").data)).length - 4) :=
  C8_ap_ssid (("AA:BB:CC:DD:EE:FF").data) (by decide)

/-- C1: performOTAUpdate reaches `ESP.restart()` only when `Update.end()`
succeeded and `Update.isFinished()` reports the full declared length
written; in particular whenever the bytes written differ from the declared
content length, no restart happens and the current image keeps running. -/
theorem C1_update_atomicity :
    (∀ e : OtaEnv, (e.written : Int) ≠ e.contentLength → performOTAUpdate e = false) ∧
    (∀ e : OtaEnv, performOTAUpdate e = true →
      e.endOk = true ∧ update_isFinished e = true ∧ (e.written : Int) = e.contentLength) := by
  constructor
  · intro e h
    have hf : update_isFinished e = false := by
      rw [update_isFinished, beq_eq_false_iff_ne]
      exact h
    simp [performOTAUpdate, hf]
  · intro e h
    rw [performOTAUpdate] at h
    split_ifs at h with h1 h2 h3 h4 h5 h6
    simp_all [update_isFinished]

theorem C1_witness :
    performOTAUpdate ⟨true, 200, 1000, true, 800, true⟩ = false ∧
    (⟨true, 200, 1000, true, 1000, true⟩ : OtaEnv).endOk = true :=
  ⟨C1_update_atomicity.1 _ (by decide),
   (C1_update_atomicity.2 ⟨true, 200, 1000, true, 1000, true⟩ (by decide)).1⟩

theorem wifiPoll30s_isSome (connAt : Nat → Bool) :
    ∀ fuel k, k ≤ 60 → 61 - k ≤ fuel → (wifiPoll30s connAt k fuel).isSome = true := by
  intro fuel
  induction fuel with
  | zero => intro k hk hf; omega
  | succ f ih =>
    intro k hk hf
    rw [wifiPoll30s]
    split
    · next hc =>
      obtain ⟨hc1, hc2⟩ := hc
      exact ih (k + 1) (by omega) (by omega)
    · rfl

theorem wifiPoll30s_exit (connAt : Nat → Bool) :
    ∀ fuel k k', k ≤ 60 → wifiPoll30s connAt k fuel = some k' → k' ≤ 60 := by
  intro fuel
  induction fuel with
  | zero =>
    intro k k' hk h
    simp [wifiPoll30s] at h
  | succ f ih =>
    intro k k' hk h
    rw [wifiPoll30s] at h
    split at h
    · next hc =>
      obtain ⟨hc1, hc2⟩ := hc
      exact ih (k + 1) k' (by omega) h
    · cases h
      exact hk

theorem wifiPollForever_exit (connAt : Nat → Bool) :
    ∀ fuel k k', wifiPollForever connAt k fuel = some k' → connAt k' = true := by
  intro fuel
  induction fuel with
  | zero => intro k k' h; simp [wifiPollForever] at h
  | succ f ih =>
    intro k k' h
    rw [wifiPollForever] at h
    split at h
    · exact ih (k + 1) k' h
    · next hc =>
      cases h
      rcases Bool.eq_false_or_eq_true (connAt k) with h' | h'
      · exact h'
      · exact absurd h' hc

/-- C4 fails as stated for part_000 (1.0.0-alpha.15): with a network that
never connects, the attach polling loop is still running after the whole
30-second window (61 status checks) and AP mode has not been entered. -/
theorem C4_counterexample :
    wifiPollForever (fun _ => false) 0 61 = none ∧
    setupWiFi_v15 (fun _ => false) 61 = none := by
  decide

/-- C4 (amended): in lumibrick.ino (1.0.0-alpha.11) every connection attempt
exits its polling loop within the 30-second timeout (61 status checks, at
most 30000 ms elapsed) and a non-connected exit always enters AP mode; in
part_000 (1.0.0-alpha.15) the polling loops of setupWiFi and of the loop()
reconnect path exit only when the connection succeeds, so a timeout
transition to Provisioning never occurs there. -/
theorem C4_attach_bounded :
    (∀ connAt : Nat → Bool, (wifiPoll30s connAt 0 61).isSome = true) ∧
    (∀ connAt k', wifiPoll30s connAt 0 61 = some k' →
      500 * k' ≤ 30000 ∧
        (connAt k' = false → setupWiFi_v11 connAt 61 = some true)) ∧
    (∀ connAt fuel k', wifiPollForever connAt 0 fuel = some k' → connAt k' = true) := by
  refine ⟨fun connAt => wifiPoll30s_isSome connAt 61 0 (by omega) (by omega), ?_, ?_⟩
  · intro connAt k' h
    have hb := wifiPoll30s_exit connAt 61 0 k' (by omega) h
    refine ⟨by omega, fun hfail => ?_⟩
    rw [setupWiFi_v11, h]
    simp [hfail]
  · intro connAt fuel k' h
    exact wifiPollForever_exit connAt fuel 0 k' h

theorem C4_witness :
    (wifiPoll30s (fun n => n == 2) 0 61).isSome = true ∧
    setupWiFi_v11 (fun _ => false) 61 = some true ∧
    ((fun n : Nat => n == 2) 2) = true :=
  ⟨C4_attach_bounded.1 (fun n => n == 2),
   (C4_attach_bounded.2.1 (fun _ => false) 60 (by decide)).2 (by decide),
   C4_attach_bounded.2.2 (fun n => n == 2) 10 2 (by decide)⟩

/-- C5 fails as stated: the specification scenario body carries the field
name passphrase, but handleConnect reads the field named password, so after
the (successful) response the stored passphrase is the serialization of the
missing field, not the submitted secret. -/
theorem C5_counterexample :
    (handleConnect ⟨some (Except.ok [(keySsid, homeBytes), (keyPassphrase, secretBytes)]),
        none, none⟩ true connSt0).1.head? = some (Ev.send 200) ∧
    (handleConnect ⟨some (Except.ok [(keySsid, homeBytes), (keyPassphrase, secretBytes)]),
        none, none⟩ true connSt0).2.home_ssid = homeBytes ∧
    (handleConnect ⟨some (Except.ok [(keySsid, homeBytes), (keyPassphrase, secretBytes)]),
        none, none⟩ true connSt0).2.home_password ≠ secretBytes := by
  decide

/-- C5 (amended): for every well-formed JSON body carrying the `ssid` and
`password` fields (the wire names the handler actually reads), the success
response is the first event of the handler — before the connection attempt
begins, hence before any outcome is known — and afterwards the globals and
the persisted store hold exactly the submitted pair (for values within the
credential bounds and free of zero bytes). -/
theorem C5_connect_stores_pair (s p : List Nat) (st : DevState) (connOk : Bool)
    (h1 : 1 ≤ s.length) (h2 : s.length ≤ 31) (h3 : p.length ≤ 63)
    (hs1 : ∀ b ∈ s, b < 256) (hs0 : ∀ b ∈ s, b ≠ 0)
    (hp1 : ∀ b ∈ p, b < 256) (hp0 : ∀ b ∈ p, b ≠ 0) :
    (connectJson s p connOk st).1.head? = some (Ev.send 200) ∧
    Ev.wifiBegin ∈ (connectJson s p connOk st).1.tail ∧
    (connectJson s p connOk st).2.home_ssid = s ∧
    (connectJson s p connOk st).2.home_password = p ∧
    loadCredentials (connectJson s p connOk st).2.eeprom = (s, p) := by
  have he : (connectJson s p connOk st).2.eeprom = saveCredentials s p st.eeprom := by
    cases connOk <;> rfl
  cases connOk with
  | false =>
    refine ⟨rfl, ?_, rfl, rfl, ?_⟩
    · show Ev.wifiBegin ∈ [Ev.saveCreds, Ev.apOff, Ev.wifiBegin]
      decide
    · rw [he]
      exact load_save_eq s p st.eeprom (by omega) (by omega) hs1 hs0 hp1 hp0
  | true =>
    refine ⟨rfl, ?_, rfl, rfl, ?_⟩
    · show Ev.wifiBegin ∈ [Ev.saveCreds, Ev.apOff, Ev.wifiBegin, Ev.mdnsStart, Ev.stripGreen]
      decide
    · rw [he]
      exact load_save_eq s p st.eeprom (by omega) (by omega) hs1 hs0 hp1 hp0

theorem C5_witness :
    (connectJson [104] [112] true connSt0).1.head? = some (Ev.send 200) ∧
    loadCredentials (connectJson [104] [112] true connSt0).2.eeprom = ([104], [112]) :=
  ⟨(C5_connect_stores_pair [104] [112] connSt0 true (by decide) (by decide) (by decide)
      (by decide) (by decide) (by decide) (by decide)).1,
   (C5_connect_stores_pair [104] [112] connSt0 true (by decide) (by decide) (by decide)
      (by decide) (by decide) (by decide) (by decide)).2.2.2.2⟩

/-- C7 fails as stated: an out-of-range brightness of 150 is not rejected
but clamped to 100 and applied with a 200 success response, mutating the
stored brightness; and a /connect JSON body missing the password field is
answered with the success response while the credentials are mutated. -/
theorem C7_counterexample :
    (handleLEDControl (LedReq.parsed ⟨some 150, none, none⟩)
        ⟨false, 0, 0, 0, 0, 200, (0, 0, 0, 0), 0⟩).1 = 200 ∧
    (handleLEDControl (LedReq.parsed ⟨some 150, none, none⟩)
        ⟨false, 0, 0, 0, 0, 200, (0, 0, 0, 0), 0⟩).2.ledBrightness = 255 ∧
    (handleConnect ⟨some (Except.ok [(keySsid, homeBytes)]), none, none⟩ true connSt0).1.head? =
      some (Ev.send 200) ∧
    (handleConnect ⟨some (Except.ok [(keySsid, homeBytes)]), none, none⟩ true connSt0).2.home_ssid ≠
      connSt0.home_ssid := by
  decide

/-- C7 (amended): a request with no body or an unparseable JSON body is
rejected with 400 and mutates no state, and /connect with neither a body nor
both form arguments is rejected with 400 and mutates no state; but
out-of-range LED values are clamped into range and applied with a success
response, and a parsed /connect body missing a credential field is accepted
with a success response while the store is mutated. -/
theorem C7_reject_no_mutation :
    (∀ st : LedState, handleLEDControl LedReq.missing st = (400, st)) ∧
    (∀ st : LedState, handleLEDControl LedReq.badJson st = (400, st)) ∧
    (∀ (st : DevState) (connOk : Bool),
      handleConnect ⟨some (Except.error ()), none, none⟩ connOk st = ([Ev.send 400], st)) ∧
    (∀ (st : DevState) (connOk : Bool),
      handleConnect ⟨none, none, none⟩ connOk st = ([Ev.send 400], st)) :=
  ⟨fun _ => rfl, fun _ => rfl, fun _ _ => rfl, fun _ _ => rfl⟩

/-- C9 fails as stated: a body carrying both a brightness and the off state
applies the brightness first (the brightness block precedes the state
block), so the previously stored brightness is not retained. -/
theorem C9_counterexample :
    (handleLEDControl (LedReq.parsed ⟨some 50, some ("off"), none⟩)
        ⟨true, 1, 2, 3, 4, 255, (9, 9, 9, 9), 255⟩).2.isOn = false ∧
    (handleLEDControl (LedReq.parsed ⟨some 50, some ("off"), none⟩)
        ⟨true, 1, 2, 3, 4, 255, (9, 9, 9, 9), 255⟩).2.ledBrightness ≠ 255 := by
  decide

/-- C9 (amended): for every /led body carrying the off state and no
brightness key, the off action is immediate and exclusive of any color
fields in the same body: the handler returns success, the stored color
channels and brightness are retained unchanged, the strip is blanked rather
than repainted with the stored color, and a following GET /led reports the
indicator off. -/
theorem C9_off_exclusive (c : Option ColorDoc) (st : LedState) :
    handleLEDControl (LedReq.parsed ⟨none, some ("off"), c⟩) st =
      (200, { st with isOn := false, stripPix := (0, 0, 0, 0) }) ∧
    (handleLEDStatus { st with isOn := false, stripPix := (0, 0, 0, 0) }).1 = false :=
  ⟨rfl, rfl⟩

theorem ledAB_isOn (b : Option Int) (st : LedState) :
    (ledAfterBrightness b st).isOn = st.isOn := by
  cases b <;> rfl

theorem ledAB_r (b : Option Int) (st : LedState) :
    (ledAfterBrightness b st).ledColorR = st.ledColorR := by
  cases b <;> rfl

theorem ledAB_g (b : Option Int) (st : LedState) :
    (ledAfterBrightness b st).ledColorG = st.ledColorG := by
  cases b <;> rfl

theorem ledAB_b (b : Option Int) (st : LedState) :
    (ledAfterBrightness b st).ledColorB = st.ledColorB := by
  cases b <;> rfl

theorem ledAB_w (b : Option Int) (st : LedState) :
    (ledAfterBrightness b st).ledColorW = st.ledColorW := by
  cases b <;> rfl

theorem applyColor_isOn (c : Option ColorDoc) (st : LedState) :
    (applyColor c st).isOn = st.isOn := by
  cases c <;> rfl

theorem applyColor_brightness (c : Option ColorDoc) (st : LedState) :
    (applyColor c st).ledBrightness = st.ledBrightness := by
  cases c <;> rfl

theorem ledFinish_isOn (doc : LedDoc) (su : Bool) (st : LedState) :
    (ledFinish doc su st).2.isOn = st.isOn := by
  simp only [ledFinish]
  split
  · exact applyColor_isOn doc.color st
  · exact applyColor_isOn doc.color st

theorem ledFinish_brightness (doc : LedDoc) (su : Bool) (st : LedState) :
    (ledFinish doc su st).2.ledBrightness = st.ledBrightness := by
  simp only [ledFinish]
  split
  · exact applyColor_brightness doc.color st
  · exact applyColor_brightness doc.color st

theorem ledFinish_r (doc : LedDoc) (su : Bool) (st : LedState) :
    (ledFinish doc su st).2.ledColorR = (applyColor doc.color st).ledColorR := by
  simp only [ledFinish]
  split <;> rfl

theorem ledFinish_g (doc : LedDoc) (su : Bool) (st : LedState) :
    (ledFinish doc su st).2.ledColorG = (applyColor doc.color st).ledColorG := by
  simp only [ledFinish]
  split <;> rfl

theorem ledFinish_b (doc : LedDoc) (su : Bool) (st : LedState) :
    (ledFinish doc su st).2.ledColorB = (applyColor doc.color st).ledColorB := by
  simp only [ledFinish]
  split <;> rfl

theorem ledFinish_w (doc : LedDoc) (su : Bool) (st : LedState) :
    (ledFinish doc su st).2.ledColorW = (applyColor doc.color st).ledColorW := by
  simp only [ledFinish]
  split <;> rfl

theorem handleLED_shapes (doc : LedDoc) (st : LedState) :
    (handleLEDControl (LedReq.parsed doc) st).2 =
        (ledFinish doc doc.brightness.isSome (ledAfterBrightness doc.brightness st)).2 ∨
    (doc.state ≠ none ∧
      (handleLEDControl (LedReq.parsed doc) st).2 =
        (ledFinish doc true
          { ledAfterBrightness doc.brightness st with isOn := true }).2) ∨
    (doc.state ≠ none ∧
      (handleLEDControl (LedReq.parsed doc) st).2 =
        { ledAfterBrightness doc.brightness st with
            isOn := false, stripPix := (0, 0, 0, 0) }) := by
  rcases doc with ⟨br, stt, c⟩
  cases stt with
  | none => exact Or.inl rfl
  | some sv =>
    by_cases h1 : sv = "on"
    · refine Or.inr (Or.inl ⟨by simp, ?_⟩)
      simp only [handleLEDControl]
      rw [if_pos h1]
    · by_cases h2 : sv = "off"
      · refine Or.inr (Or.inr ⟨by simp, ?_⟩)
        simp only [handleLEDControl]
        rw [if_neg h1, if_pos h2]
      · refine Or.inl ?_
        simp only [handleLEDControl]
        rw [if_neg h1, if_neg h2]

/-- C10: for every /led body containing a color object, exactly the channel
keys present in it are applied (a changed channel implies its key was
present, an absent key leaves its channel unchanged), the on/off state is
unchanged when the state key is absent, and the brightness is unchanged when
the brightness key is absent. -/
theorem C10_color_frame (br : Option Int) (stt : Option String) (cf : ColorDoc)
    (st : LedState) :
    (cf.r = none → (ledResult br stt (some cf) st).ledColorR = st.ledColorR) ∧
    (cf.g = none → (ledResult br stt (some cf) st).ledColorG = st.ledColorG) ∧
    (cf.b = none → (ledResult br stt (some cf) st).ledColorB = st.ledColorB) ∧
    (cf.w = none → (ledResult br stt (some cf) st).ledColorW = st.ledColorW) ∧
    ((ledResult br stt (some cf) st).ledColorR ≠ st.ledColorR → cf.r ≠ none) ∧
    ((ledResult br stt (some cf) st).ledColorG ≠ st.ledColorG → cf.g ≠ none) ∧
    ((ledResult br stt (some cf) st).ledColorB ≠ st.ledColorB → cf.b ≠ none) ∧
    ((ledResult br stt (some cf) st).ledColorW ≠ st.ledColorW → cf.w ≠ none) ∧
    (stt = none → (ledResult br stt (some cf) st).isOn = st.isOn) ∧
    (br = none → (ledResult br stt (some cf) st).ledBrightness = st.ledBrightness) := by
  have hsh := handleLED_shapes ⟨br, stt, some cf⟩ st
  have hR : cf.r = none → (ledResult br stt (some cf) st).ledColorR = st.ledColorR := by
    intro h
    rcases hsh with hc | ⟨_, hc⟩ | ⟨_, hc⟩ <;> rw [ledResult, hc]
    · rw [ledFinish_r]
      simp [applyColor, h, updChan, ledAB_r]
    · rw [ledFinish_r]
      simp [applyColor, h, updChan, ledAB_r]
    · simp [ledAB_r]
  have hG : cf.g = none → (ledResult br stt (some cf) st).ledColorG = st.ledColorG := by
    intro h
    rcases hsh with hc | ⟨_, hc⟩ | ⟨_, hc⟩ <;> rw [ledResult, hc]
    · rw [ledFinish_g]
      simp [applyColor, h, updChan, ledAB_g]
    · rw [ledFinish_g]
      simp [applyColor, h, updChan, ledAB_g]
    · simp [ledAB_g]
  have hB : cf.b = none → (ledResult br stt (some cf) st).ledColorB = st.ledColorB := by
    intro h
    rcases hsh with hc | ⟨_, hc⟩ | ⟨_, hc⟩ <;> rw [ledResult, hc]
    · rw [ledFinish_b]
      simp [applyColor, h, updChan, ledAB_b]
    · rw [ledFinish_b]
      simp [applyColor, h, updChan, ledAB_b]
    · simp [ledAB_b]
  have hW : cf.w = none → (ledResult br stt (some cf) st).ledColorW = st.ledColorW := by
    intro h
    rcases hsh with hc | ⟨_, hc⟩ | ⟨_, hc⟩ <;> rw [ledResult, hc]
    · rw [ledFinish_w]
      simp [applyColor, h, updChan, ledAB_w]
    · rw [ledFinish_w]
      simp [applyColor, h, updChan, ledAB_w]
    · simp [ledAB_w]
  have hOn : stt = none → (ledResult br stt (some cf) st).isOn = st.isOn := by
    intro h
    subst h
    rcases hsh with hc | ⟨hne, _⟩ | ⟨hne, _⟩
    · rw [ledResult, hc, ledFinish_isOn, ledAB_isOn]
    · simp at hne
    · simp at hne
  have hBr : br = none → (ledResult br stt (some cf) st).ledBrightness = st.ledBrightness := by
    intro h
    subst h
    rcases hsh with hc | ⟨_, hc⟩ | ⟨_, hc⟩ <;> rw [ledResult, hc]
    · rw [ledFinish_brightness]
      exact rfl
    · rw [ledFinish_brightness]
      exact rfl
    · exact rfl
  exact ⟨hR, hG, hB, hW, fun hc hn => hc (hR hn), fun hc hn => hc (hG hn),
    fun hc hn => hc (hB hn), fun hc hn => hc (hW hn), hOn, hBr⟩

theorem C10_witness :
    (ledResult none none (some ⟨some 300, none, none, some 7⟩) ledSt0).ledColorG =
      ledSt0.ledColorG ∧
    (ledResult none none (some ⟨some 300, none, none, some 7⟩) ledSt0).isOn = ledSt0.isOn ∧
    (ledResult none none (some ⟨some 300, none, none, some 7⟩) ledSt0).ledBrightness =
      ledSt0.ledBrightness :=
  ⟨(C10_color_frame none none ⟨some 300, none, none, some 7⟩ ledSt0).2.1 rfl,
   (C10_color_frame none none ⟨some 300, none, none, some 7⟩ ledSt0).2.2.2.2.2.2.2.2.1 rfl,
   (C10_color_frame none none ⟨some 300, none, none, some 7⟩ ledSt0).2.2.2.2.2.2.2.2.2 rfl⟩
